import Mathlib

/-!
Shallow embedding of `src/automation/auto-remediate.py` (shift-left-security-demo):
an automated security-remediation script that loads FCS CLI scan findings from a
results directory, buckets them by severity, and — when critical/high findings
exist — creates a git branch, applies a static template fix, pushes, and opens a
pull request via the GitHub CLI.

JSON values that can appear in a finding's `severity` field are modelled by
`JVal`; findings are records with the four fields the script reads; filesystem
and subprocess outcomes are modelled by an explicit environment (`DirState`,
`Env`), and `mainRun` returns `Except` (an `Except.error` models an uncaught
Python exception escaping `main`) together with the list of version-control /
PR commands the run invoked.
-/

instance {ε α : Type} [DecidableEq ε] [DecidableEq α] : DecidableEq (Except ε α) := fun a b =>
  match a, b with
  | Except.ok x, Except.ok y =>
    if h : x = y then isTrue (by rw [h]) else isFalse (by intro hc; cases hc; exact h rfl)
  | Except.error x, Except.error y =>
    if h : x = y then isTrue (by rw [h]) else isFalse (by intro hc; cases hc; exact h rfl)
  | Except.ok _, Except.error _ => isFalse (by intro hc; cases hc)
  | Except.error _, Except.ok _ => isFalse (by intro hc; cases hc)

/-- A JSON scalar value as it may appear in a finding's `severity` field. -/
inductive JVal where
  | jstr (s : String)
  | jnum (n : Int)
  | jbool (b : Bool)
  | jnull
  deriving DecidableEq

/-- Embeds a finding record: the script reads (only) the keys `severity`,
`rule_name`, `details` and `description`; `none` models an absent key. -/
structure Finding where
  severity : Option JVal
  rule_name : Option String
  details : Option String
  description : Option String
  deriving DecidableEq

/-- Embeds the `categories` dict of `categorize_findings` (auto-remediate.py
lines 42-47): a mapping with exactly the four severity keys. -/
structure Categories where
  CRITICAL : List Finding
  HIGH : List Finding
  MEDIUM : List Finding
  INFORMATIONAL : List Finding
  deriving DecidableEq

/-- Python's `str.upper` restricted to the ASCII range (all severity labels the
script compares against are ASCII): uppercase every character. -/
def pyUpper (s : String) : String :=
  String.mk (s.data.map Char.toUpper)

/-- Python's `str.lower` restricted to the ASCII range. -/
def pyLower (s : String) : String :=
  String.mk (s.data.map Char.toLower)

/-- Python's `.upper()` attribute call on a JSON value: succeeds (uppercasing)
only on strings; on a number, boolean or null it raises `AttributeError`. -/
def jUpper : JVal → Except String String
  | JVal.jstr s => Except.ok (pyUpper s)
  | _ => Except.error "AttributeError"

/-- Embeds `categories[severity].append(finding)` guarded by
`if severity in categories` (auto-remediate.py lines 51-52): append to the
matching bucket, leave everything unchanged for an unrecognized label. -/
def addToCategory (cats : Categories) (sev : String) (f : Finding) : Categories :=
  if sev = "CRITICAL" then { cats with CRITICAL := cats.CRITICAL ++ [f] }
  else if sev = "HIGH" then { cats with HIGH := cats.HIGH ++ [f] }
  else if sev = "MEDIUM" then { cats with MEDIUM := cats.MEDIUM ++ [f] }
  else if sev = "INFORMATIONAL" then { cats with INFORMATIONAL := cats.INFORMATIONAL ++ [f] }
  else cats

/-- The loop of `categorize_findings` (auto-remediate.py lines 49-52), as a fold
over the remaining findings: `finding.get('severity', 'INFORMATIONAL').upper()`
then the guarded append. An `AttributeError` from `.upper()` propagates. -/
def categorizeFrom (cats : Categories) : List Finding → Except String Categories
  | [] => Except.ok cats
  | f :: rest =>
    match jUpper ((f.severity).getD (JVal.jstr "INFORMATIONAL")) with
    | Except.error e => Except.error e
    | Except.ok sev => categorizeFrom (addToCategory cats sev f) rest

/-- Embeds `SecurityRemediator.categorize_findings` (auto-remediate.py
lines 40-54), starting from the four empty buckets. -/
def categorize_findings (findings : List Finding) : Except String Categories :=
  categorizeFrom ⟨[], [], [], []⟩ findings

/-- True when the finding's `severity` value, if present, is a string — the
precondition under which `.upper()` cannot raise. -/
def sevIsStr (f : Finding) : Bool :=
  match f.severity with
  | some (JVal.jstr _) => true
  | some _ => false
  | none => true

/-- The effective severity label of a finding with a string (or absent)
severity: the uppercased value, defaulting to INFORMATIONAL when absent. -/
def sevLabel (f : Finding) : String :=
  match f.severity with
  | some (JVal.jstr s) => pyUpper s
  | some _ => ""
  | none => "INFORMATIONAL"

/-- The four buckets described as order-preserving filters of the input. -/
def bucketed (findings : List Finding) : Categories :=
  ⟨ findings.filter (fun f => sevLabel f == "CRITICAL"),
    findings.filter (fun f => sevLabel f == "HIGH"),
    findings.filter (fun f => sevLabel f == "MEDIUM"),
    findings.filter (fun f => sevLabel f == "INFORMATIONAL") ⟩

/-- Python's `str.endswith`: the argument is a suffix of the string. -/
def strEndsWith (s suf : String) : Bool :=
  s.data.reverse.take suf.data.length == suf.data.reverse

/-- What happens when one file of the results directory is opened and parsed:
either reading/parsing raises (`readError`), or it yields a JSON document whose
top level may or may not carry a `rule_detections` array. -/
inductive FileContent where
  | readError
  | parsed (ruleDetections : Option (List Finding))
  deriving DecidableEq

/-- One entry of the results directory: its filename and what opening it does. -/
structure SrcFile where
  name : String
  content : FileContent
  deriving DecidableEq

/-- The state of the results directory as `main` and the loader observe it:
absent (`os.path.exists` false), listing raises (`os.listdir` fails), or a
listing of files in enumeration order. -/
inductive DirState where
  | missing
  | listError
  | files (fs : List SrcFile)
  deriving DecidableEq

/-- The `for filename in os.listdir(...)` loop of `load_security_findings`
(auto-remediate.py lines 26-34) with the accumulated `findings` list: skip
names not ending in `.json`; a read/parse exception leaves the loop (caught at
lines 35-36, after which the accumulated list is returned); a present
`rule_detections` array is appended via `findings.extend`. -/
def collectFindings : List SrcFile → List Finding → List Finding
  | [], acc => acc
  | f :: rest, acc =>
    if strEndsWith f.name ".json" then
      match f.content with
      | FileContent.readError => acc
      | FileContent.parsed none => collectFindings rest acc
      | FileContent.parsed (some ds) => collectFindings rest (acc ++ ds)
    else collectFindings rest acc

/-- Embeds `SecurityRemediator.load_security_findings` (auto-remediate.py
lines 21-38). A failing `os.listdir` is caught with nothing accumulated, so it
yields the empty list. -/
def load_security_findings : DirState → List Finding
  | DirState.missing => []
  | DirState.listError => []
  | DirState.files fs => collectFindings fs []

/-- Python's `str.title` restricted to ASCII: uppercase every alphabetic
character that follows a non-alphabetic one, lowercase the rest. -/
def pyTitleGo : List Char → Bool → List Char
  | [], _ => []
  | c :: cs, prevAlpha =>
    if c.isAlpha then
      (if prevAlpha then c.toLower else c.toUpper) :: pyTitleGo cs true
    else
      c :: pyTitleGo cs false

/-- Python's `str.title` restricted to ASCII. -/
def pyTitle (s : String) : String :=
  String.mk (pyTitleGo s.data false)

/-- The `severity_icons` lookup with default `'🔧'` (auto-remediate.py
lines 143-150). -/
def severityIcon (severity : String) : String :=
  if severity = "CRITICAL" then "🚨"
  else if severity = "HIGH" then "⚠️"
  else if severity = "MEDIUM" then "📋"
  else if severity = "INFORMATIONAL" then "ℹ️"
  else "🔧"

/-- The opening section of the PR body (auto-remediate.py lines 152-158): the
f-string interpolating the icon, title-cased severity, finding count and
lower-cased severity. -/
def prHeader (severity : String) (findings : List Finding) : String :=
  "## " ++ severityIcon severity ++ " Security Remediation: " ++ pyTitle severity ++
  " Issues\n\n### 📊 Issues Fixed\nThis pull request addresses **" ++
  toString findings.length ++ " " ++ pyLower severity ++
  " severity security issues** identified by CrowdStrike FCS CLI.\n\n### 🔍 Security Findings Addressed:\n"

/-- The numbered line for one finding (auto-remediate.py lines 160-163):
`rule_name` defaults to `'Unknown Rule'`; the description is `details`,
falling back to `description`, falling back to `'Security issue detected'`. -/
def findingLine (i : Nat) (f : Finding) : String :=
  toString i ++ ". **" ++ (f.rule_name).getD "Unknown Rule" ++ "**: " ++
  (f.details).getD ((f.description).getD "Security issue detected") ++ "\n"

/-- The `for i, finding in enumerate(findings, 1)` loop (auto-remediate.py
lines 160-163), appending one numbered line per finding to the body. -/
def appendFindingLines : String → Nat → List Finding → String
  | body, _, [] => body
  | body, i, f :: rest => appendFindingLines (body ++ findingLine i f) (i + 1) rest

/-- The `for fix in fixes_applied` loop (auto-remediate.py lines 169-170),
appending one bullet per applied fix. -/
def appendFixLines : String → List String → String
  | body, [] => body
  | body, fix :: rest => appendFixLines (body ++ ("- " ++ fix ++ "\n")) rest

/-- The fixed heading inserted between the findings list and the fixes list
(auto-remediate.py lines 165-167). -/
def prFixesHeading : String := "\n### ✅ Fixes Applied:\n"

/-- The fixed closing section of the PR body (auto-remediate.py
lines 172-195). -/
def prTail : String :=
"
### 🎯 Security Impact:
These changes significantly improve the security posture by:
- **Reducing Attack Surface**: Eliminating public access and overprivileged permissions
- **Enforcing Best Practices**: Implementing encryption, versioning, and least privilege
- **Improving Monitoring**: Adding logging and audit capabilities
- **Ensuring Compliance**: Aligning with security frameworks (CIS, SOC2, NIST)

### 🔗 Related Resources:
- **Original Scan Results**: Check the workflow artifacts for detailed findings
- **Security Guidelines**: [AWS Security Best Practices](https://aws.amazon.com/architecture/security-identity-compliance/)
- **Compliance Frameworks**: CIS Benchmarks, SOC2, PCI-DSS

### ⚡ Testing:
- [x] Terraform syntax validation passed
- [x] Security scan validation completed
- [x] No breaking changes to existing functionality
- [x] All fixes follow AWS Well-Architected principles

---
*This pull request was automatically generated by the shift-left security remediation system.*

🤖 Generated with [Claude Code](https://claude.com/claude-code)
"

/-- Embeds `SecurityRemediator.generate_pr_body` (auto-remediate.py
lines 140-197): header, numbered finding lines, fixes heading, fix bullets,
fixed tail, accumulated exactly as the Python `body +=` sequence does. -/
def generate_pr_body (severity : String) (findings : List Finding)
    (fixes_applied : List String) : String :=
  let body := prHeader severity findings
  let body := appendFindingLines body 1 findings
  let body := body ++ prFixesHeading
  let body := appendFixLines body fixes_applied
  body ++ prTail

/-- One external version-control / PR command invocation, as issued through
`subprocess.run` or the GitHub CLI. -/
inductive Cmd where
  | gitCheckoutMain
  | gitCheckoutNewBranch (name : String)
  | gitAdd (path : String)
  | gitCommit
  | gitPush (name : String)
  | ghPrCreate (title : String) (body : String) (head : String) (base : String)
  deriving DecidableEq

/-- The outcomes of the external world for one run: the results directory
content and the success of each external command the script may invoke. -/
structure Env where
  dir : DirState
  checkoutMainOk : Bool
  branchOk : Bool
  templateExists : Bool
  copyOk : Bool
  addOk : Bool
  commitOk : Bool
  pushOk : Bool
  prOk : Bool
  deriving DecidableEq

/-- The fix branch name (auto-remediate.py line 231). -/
def branch_name : String := "security-fixes/critical-high-remediation"

/-- The `fixes_applied` list built in `main` (auto-remediate.py
lines 251-260). -/
def fixes_applied_list : List String :=
  [ "🛡️ Block S3 bucket public access (prevents data exposure)",
    "🔐 Enable S3 server-side encryption (protects data at rest)",
    "📋 Enable S3 versioning (prevents accidental data loss)",
    "🚫 Remove wildcard IAM permissions (enforces least privilege)",
    "📍 Add IAM condition restrictions (limits permission scope)",
    "🔑 Remove programmatic access keys (reduces credential risk)",
    "📊 Add access logging for security monitoring",
    "🏗️ Implement secure-by-default infrastructure patterns" ]

/-- Embeds `SecurityRemediator.create_fix_branch` (auto-remediate.py
lines 56-64): runs `git checkout -b`, returns False on a
`CalledProcessError` (caught), True otherwise. -/
def create_fix_branch (env : Env) (name : String) : Bool × List Cmd :=
  (env.branchOk, [Cmd.gitCheckoutNewBranch name])

/-- Embeds `SecurityRemediator.apply_critical_fixes` (auto-remediate.py
lines 66-107): when the template exists, copy it over `terraform/main.tf`,
then `git add` and `git commit`; any exception is caught and `False`
returned, and when the template is absent the `if` is skipped and `False`
returned. The commands actually invoked are traced. -/
def apply_critical_fixes (env : Env) : Bool × List Cmd :=
  if env.templateExists then
    if env.copyOk then
      if env.addOk then
        (env.commitOk, [Cmd.gitAdd "terraform/main.tf", Cmd.gitCommit])
      else
        (false, [Cmd.gitAdd "terraform/main.tf"])
    else (false, [])
  else (false, [])

/-- Embeds `SecurityRemediator.push_branch` (auto-remediate.py
lines 109-116). -/
def push_branch (env : Env) (name : String) : Bool × List Cmd :=
  (env.pushOk, [Cmd.gitPush name])

/-- Embeds `SecurityRemediator.create_pull_request` (auto-remediate.py
lines 118-138), with `self.base_branch = 'main'` (line 19). -/
def create_pull_request (env : Env) (name title body : String) : Bool × List Cmd :=
  (env.prOk, [Cmd.ghPrCreate title body name "main"])

/-- Embeds `main` (auto-remediate.py lines 199-283). The result is
`Except.error` when an exception escapes `main` uncaught — which happens for
the unguarded `subprocess.run(['git', 'checkout', 'main'], check=True)` at
line 234 and for an `AttributeError` escaping `categorize_findings` — and
otherwise `Except.ok (exitCode, trace)` with the return value passed to
`sys.exit` and the external commands invoked. -/
def mainRun (env : Env) : Except String (Int × List Cmd) :=
  match env.dir with
  | DirState.missing => Except.ok (0, [])
  | d =>
    let findings := load_security_findings d
    match categorize_findings findings with
    | Except.error e => Except.error e
    | Except.ok categories =>
      if findings.isEmpty then Except.ok (0, [])
      else
        let critical_and_high := categories.CRITICAL ++ categories.HIGH
        if critical_and_high.isEmpty then Except.ok (0, [])
        else
          if env.checkoutMainOk then
            let t0 := [Cmd.gitCheckoutMain]
            let r1 := create_fix_branch env branch_name
            if r1.1 then
              let r2 := apply_critical_fixes env
              if r2.1 then
                let r3 := push_branch env branch_name
                if r3.1 then
                  let pr_title := "🔒 Fix " ++ toString critical_and_high.length ++
                    " Critical/High Security Issues"
                  let pr_body := generate_pr_body "CRITICAL/HIGH" critical_and_high
                    fixes_applied_list
                  let r4 := create_pull_request env branch_name pr_title pr_body
                  if r4.1 then Except.ok (0, t0 ++ r1.2 ++ r2.2 ++ r3.2 ++ r4.2)
                  else Except.ok (1, t0 ++ r1.2 ++ r2.2 ++ r3.2 ++ r4.2)
                else Except.ok (1, t0 ++ r1.2 ++ r2.2 ++ r3.2)
              else Except.ok (1, t0 ++ r1.2 ++ r2.2)
            else Except.ok (1, t0 ++ r1.2)
          else Except.error "CalledProcessError: git checkout main"

/-- A finding with CRITICAL severity used in concrete evaluations. -/
def critFinding : Finding := ⟨some (JVal.jstr "CRITICAL"), some "S3 public", some "bucket open", none⟩

/-- A finding with MEDIUM severity used in concrete evaluations. -/
def medFinding : Finding := ⟨some (JVal.jstr "MEDIUM"), some "tag missing", none, none⟩

/-- True exactly when the JSON value is a string. -/
def jIsStr : JVal → Bool
  | JVal.jstr _ => true
  | _ => false

/-- A finding whose severity is present but unrecognized ("LOW"). -/
def lowFinding : Finding := ⟨some (JVal.jstr "LOW"), none, none, none⟩

/-- A results directory whose first file parses and contributes one finding
and whose second file fails to read. -/
def dirPartialFail : DirState := DirState.files
  [⟨"a.json", FileContent.parsed (some [critFinding])⟩,
   ⟨"b.json", FileContent.readError⟩]

/-- Concatenation of a list of strings, in order. -/
def joinStrings : List String → String
  | [] => ""
  | s :: rest => s ++ joinStrings rest

/-- The loaded findings with effective label CRITICAL followed by those with
effective label HIGH — the `critical_and_high` list `main` builds (line 226)
expressed through the bucket characterization. -/
def chFindings (env : Env) : List Finding :=
  (load_security_findings env.dir).filter (fun f => sevLabel f == "CRITICAL") ++
  (load_security_findings env.dir).filter (fun f => sevLabel f == "HIGH")

/-- True when every remediation step `main` attempts succeeds: branch
creation, template copy plus staging plus commit, push, and PR creation. -/
def stepSuccess (env : Env) : Bool :=
  env.branchOk && (env.templateExists && (env.copyOk && (env.addOk && env.commitOk))) &&
    env.pushOk && env.prOk

/-- The run falsifying C4: one critical finding and a failing
`git checkout main`. -/
def envCheckoutFail : Env :=
  ⟨DirState.files [⟨"a.json", FileContent.parsed (some [critFinding])⟩],
   false, true, true, true, true, true, true, true⟩

/-- A run with one critical finding in which every external step succeeds. -/
def envAllOk : Env :=
  ⟨DirState.files [⟨"a.json", FileContent.parsed (some [critFinding])⟩],
   true, true, true, true, true, true, true, true⟩

/-- A remediation run in which the template file is absent. -/
def envNoTemplate : Env :=
  ⟨DirState.files [⟨"a.json", FileContent.parsed (some [critFinding])⟩],
   true, true, false, true, true, true, true, true⟩

/-- A directory holding only a MEDIUM finding, with every external command set
to fail — exercising that none is ever invoked. -/
def envMediumOnly : Env :=
  ⟨DirState.files [⟨"m.json", FileContent.parsed (some [medFinding])⟩],
   false, false, false, false, false, false, false, false⟩

lemma addToCategory_eq (cats : Categories) (s : String) (f : Finding) :
    addToCategory cats s f =
      ⟨ cats.CRITICAL ++ (if s == "CRITICAL" then [f] else []),
        cats.HIGH ++ (if s == "HIGH" then [f] else []),
        cats.MEDIUM ++ (if s == "MEDIUM" then [f] else []),
        cats.INFORMATIONAL ++ (if s == "INFORMATIONAL" then [f] else []) ⟩ := by
  simp only [addToCategory]
  split_ifs with h1 h2 h3 h4 <;> simp_all

lemma sevLabel_of_sevIsStr (f : Finding) (h : sevIsStr f = true) :
    jUpper ((f.severity).getD (JVal.jstr "INFORMATIONAL")) = Except.ok (sevLabel f) := by
  cases hf : f.severity with
  | none => simp [jUpper, sevLabel, hf]; decide
  | some v =>
    cases v with
    | jstr s => simp [jUpper, sevLabel, hf]
    | jnum n => simp [sevIsStr, hf] at h
    | jbool b => simp [sevIsStr, hf] at h
    | jnull => simp [sevIsStr, hf] at h

lemma categorizeFrom_eq_filters (fs : List Finding) :
    ∀ cats : Categories, fs.all sevIsStr = true →
      categorizeFrom cats fs = Except.ok
        ⟨ cats.CRITICAL ++ fs.filter (fun f => sevLabel f == "CRITICAL"),
          cats.HIGH ++ fs.filter (fun f => sevLabel f == "HIGH"),
          cats.MEDIUM ++ fs.filter (fun f => sevLabel f == "MEDIUM"),
          cats.INFORMATIONAL ++ fs.filter (fun f => sevLabel f == "INFORMATIONAL") ⟩ := by
  induction fs with
  | nil => intro cats _; simp [categorizeFrom]
  | cons f rest ih =>
    intro cats hall
    rw [List.all_cons, Bool.and_eq_true] at hall
    rw [categorizeFrom, sevLabel_of_sevIsStr f hall.1]
    dsimp only
    rw [ih _ hall.2, addToCategory_eq]
    simp only [List.filter_cons]
    split_ifs <;> simp_all [List.append_assoc]

lemma categorize_eq_bucketed (findings : List Finding)
    (h : findings.all sevIsStr = true) :
    categorize_findings findings = Except.ok (bucketed findings) := by
  have := categorizeFrom_eq_filters findings ⟨[], [], [], []⟩ h
  simpa [categorize_findings, bucketed] using this

/-- C1: for every list of findings (whose present severities are strings, as
the data model requires), `categorize_findings` buckets each finding under its
uppercased severity — defaulting to INFORMATIONAL when the key is absent —
when that label is one of CRITICAL/HIGH/MEDIUM/INFORMATIONAL, and otherwise
leaves the finding in no bucket; each bucket is an order-preserving filter of
the input, so relative input order is kept. -/
theorem categorize_buckets_filter_by_label (findings : List Finding)
    (h : findings.all sevIsStr = true) :
    categorize_findings findings = Except.ok
      ⟨ findings.filter (fun f => sevLabel f == "CRITICAL"),
        findings.filter (fun f => sevLabel f == "HIGH"),
        findings.filter (fun f => sevLabel f == "MEDIUM"),
        findings.filter (fun f => sevLabel f == "INFORMATIONAL") ⟩ :=
  categorize_eq_bucketed findings h

/-- Witness for C1 at a concrete three-finding input (one lower-case high, one
missing severity, one unrecognized LOW). -/
theorem categorize_buckets_filter_by_label_witness :
    ([⟨some (JVal.jstr "high"), none, none, none⟩, ⟨none, none, none, none⟩,
      ⟨some (JVal.jstr "LOW"), none, none, none⟩] : List Finding).all sevIsStr = true ∧
    categorize_findings
      [⟨some (JVal.jstr "high"), none, none, none⟩, ⟨none, none, none, none⟩,
       ⟨some (JVal.jstr "LOW"), none, none, none⟩] = Except.ok
      ⟨ ([⟨some (JVal.jstr "high"), none, none, none⟩, ⟨none, none, none, none⟩,
          ⟨some (JVal.jstr "LOW"), none, none, none⟩] : List Finding).filter
            (fun f => sevLabel f == "CRITICAL"),
        ([⟨some (JVal.jstr "high"), none, none, none⟩, ⟨none, none, none, none⟩,
          ⟨some (JVal.jstr "LOW"), none, none, none⟩] : List Finding).filter
            (fun f => sevLabel f == "HIGH"),
        ([⟨some (JVal.jstr "high"), none, none, none⟩, ⟨none, none, none, none⟩,
          ⟨some (JVal.jstr "LOW"), none, none, none⟩] : List Finding).filter
            (fun f => sevLabel f == "MEDIUM"),
        ([⟨some (JVal.jstr "high"), none, none, none⟩, ⟨none, none, none, none⟩,
          ⟨some (JVal.jstr "LOW"), none, none, none⟩] : List Finding).filter
            (fun f => sevLabel f == "INFORMATIONAL") ⟩ :=
  ⟨by decide, categorize_buckets_filter_by_label _ (by decide)⟩

/-- C2 counterexample: a finding with the present but unrecognized severity
"LOW" is not treated as INFORMATIONAL — `categorize_findings` returns four
empty buckets, not an INFORMATIONAL bucket holding the finding, so not every
input finding lands in a bucket. -/
theorem categorize_low_severity_dropped_cex :
    categorize_findings [lowFinding] = Except.ok ⟨[], [], [], []⟩ ∧
    categorize_findings [lowFinding] ≠ Except.ok ⟨[], [], [], [lowFinding]⟩ := by
  exact ⟨by decide, by decide⟩

/-- C2 amended: for findings whose present severities are strings, a finding
whose uppercased label is not one of the four bucket labels is silently
dropped — it appears in no bucket — while a finding with an absent severity
key defaults into the INFORMATIONAL bucket. -/
theorem categorize_unrecognized_dropped_absent_informational
    (findings : List Finding) (h : findings.all sevIsStr = true) (f : Finding)
    (_hf : f ∈ findings)
    (h1 : sevLabel f ≠ "CRITICAL") (h2 : sevLabel f ≠ "HIGH")
    (h3 : sevLabel f ≠ "MEDIUM") (h4 : sevLabel f ≠ "INFORMATIONAL") :
    ∃ cats : Categories, categorize_findings findings = Except.ok cats ∧
      f ∉ cats.CRITICAL ∧ f ∉ cats.HIGH ∧ f ∉ cats.MEDIUM ∧ f ∉ cats.INFORMATIONAL ∧
      ∀ g ∈ findings, g.severity = none → g ∈ cats.INFORMATIONAL := by
  refine ⟨bucketed findings, categorize_eq_bucketed findings h, ?_, ?_, ?_, ?_, ?_⟩
  · simp [bucketed, List.mem_filter, h1]
  · simp [bucketed, List.mem_filter, h2]
  · simp [bucketed, List.mem_filter, h3]
  · simp [bucketed, List.mem_filter, h4]
  · intro g hg hgsev
    simp [bucketed, List.mem_filter, hg, sevLabel, hgsev]

/-- Witness for the amended C2 at a concrete input: a LOW finding is dropped
and a severity-less finding lands in INFORMATIONAL. -/
theorem categorize_unrecognized_dropped_absent_informational_witness :
    ([lowFinding, ⟨none, none, none, none⟩] : List Finding).all sevIsStr = true ∧
    (∃ cats : Categories,
      categorize_findings [lowFinding, ⟨none, none, none, none⟩] = Except.ok cats ∧
      lowFinding ∉ cats.CRITICAL ∧ lowFinding ∉ cats.HIGH ∧ lowFinding ∉ cats.MEDIUM ∧
      lowFinding ∉ cats.INFORMATIONAL ∧
      ∀ g ∈ ([lowFinding, ⟨none, none, none, none⟩] : List Finding), g.severity = none →
        g ∈ cats.INFORMATIONAL) :=
  ⟨by decide,
   categorize_unrecognized_dropped_absent_informational _ (by decide) lowFinding
     (by simp) (by decide) (by decide) (by decide) (by decide)⟩

lemma categorizeFrom_raises (fs : List Finding) :
    ∀ cats : Categories, (fs.any fun f => !sevIsStr f) = true →
      categorizeFrom cats fs = Except.error "AttributeError" := by
  induction fs with
  | nil => intro cats hbad; simp at hbad
  | cons f0 rest ih =>
    intro cats hbad
    rw [List.any_cons, Bool.or_eq_true] at hbad
    by_cases h0 : sevIsStr f0 = true
    · rw [categorizeFrom, sevLabel_of_sevIsStr f0 h0]
      dsimp only
      exact ih _ (by simpa [h0] using hbad)
    · cases hf : f0.severity with
      | none => exact absurd (by simp [sevIsStr, hf]) h0
      | some v =>
        cases v with
        | jstr s => exact absurd (by simp [sevIsStr, hf]) h0
        | jnum n => rw [categorizeFrom, hf]; rfl
        | jbool b => rw [categorizeFrom, hf]; rfl
        | jnull => rw [categorizeFrom, hf]; rfl

/-- C9: when some finding's severity key maps to a non-string JSON value, the
`.upper()` call raises an `AttributeError` that `categorize_findings` does not
catch — the categorizer returns no buckets at all instead of bucketing or
dropping the finding. -/
theorem categorize_nonstring_severity_raises (findings : List Finding)
    (f : Finding) (v : JVal) (hf : f ∈ findings) (hv : f.severity = some v)
    (hs : jIsStr v = false) :
    categorize_findings findings = Except.error "AttributeError" := by
  apply categorizeFrom_raises
  rw [List.any_eq_true]
  refine ⟨f, hf, ?_⟩
  cases v with
  | jstr s => simp [jIsStr] at hs
  | jnum n => simp [sevIsStr, hv]
  | jbool b => simp [sevIsStr, hv]
  | jnull => simp [sevIsStr, hv]

/-- Witness for C9: a finding whose severity is the JSON number 5 makes the
categorizer raise. -/
theorem categorize_nonstring_severity_raises_witness :
    (⟨some (JVal.jnum 5), none, none, none⟩ : Finding) ∈
      ([⟨some (JVal.jnum 5), none, none, none⟩, medFinding] : List Finding) ∧
    categorize_findings [⟨some (JVal.jnum 5), none, none, none⟩, medFinding] =
      Except.error "AttributeError" :=
  ⟨by simp,
   categorize_nonstring_severity_raises _ (⟨some (JVal.jnum 5), none, none, none⟩ : Finding)
     (JVal.jnum 5) (by simp) (by decide) (by decide)⟩

/-- C3 counterexample: when the second file of the directory fails to read,
the loader returns the finding already accumulated from the first file — a
non-empty list — not the empty list the claim requires. -/
theorem load_failure_keeps_partial_findings_cex :
    load_security_findings dirPartialFail = [critFinding] ∧
    load_security_findings dirPartialFail ≠ ([] : List Finding) :=
  ⟨by decide, by decide⟩

lemma collectFindings_stops_at_error (good : List SrcFile) :
    ∀ (badname : String) (rest : List SrcFile) (acc : List Finding),
      (∀ f ∈ good, strEndsWith f.name ".json" = true → f.content ≠ FileContent.readError) →
      strEndsWith badname ".json" = true →
      collectFindings (good ++ ⟨badname, FileContent.readError⟩ :: rest) acc =
        collectFindings good acc := by
  induction good with
  | nil =>
    intro badname rest acc _ hbad
    simp only [List.nil_append, collectFindings, hbad, if_true]
  | cons f0 g ih =>
    intro badname rest acc hgood hbad
    by_cases hj : strEndsWith f0.name ".json" = true
    · cases hc : f0.content with
      | readError => exact absurd hc (hgood f0 (by simp) hj)
      | parsed ds =>
        cases ds with
        | none =>
          simp only [List.cons_append, collectFindings, hj, if_true, hc]
          exact ih badname rest acc (fun f hf => hgood f (by simp [hf])) hbad
        | some l =>
          simp only [List.cons_append, collectFindings, hj, if_true, hc]
          exact ih badname rest (acc ++ l) (fun f hf => hgood f (by simp [hf])) hbad
    · simp only [List.cons_append, collectFindings, hj, if_false]
      exact ih badname rest acc (fun f hf => hgood f (by simp [hf])) hbad

/-- C3 amended: a read or parse failure is caught and ends the load, and the
loader returns the findings accumulated from the files processed before the
failure — not necessarily the empty list; the result is empty exactly when no
earlier file contributed findings, e.g. when the directory listing itself
fails. -/
theorem load_failure_returns_findings_so_far (good : List SrcFile)
    (badname : String) (rest : List SrcFile)
    (hgood : ∀ f ∈ good, strEndsWith f.name ".json" = true →
      f.content ≠ FileContent.readError)
    (hbad : strEndsWith badname ".json" = true) :
    load_security_findings
        (DirState.files (good ++ ⟨badname, FileContent.readError⟩ :: rest)) =
      load_security_findings (DirState.files good) ∧
    load_security_findings DirState.listError = [] :=
  ⟨collectFindings_stops_at_error good badname rest [] hgood hbad, rfl⟩

/-- Witness for the amended C3: with one good file before the failing file and
one after, the load equals the one-good-file load (the later file ignored). -/
theorem load_failure_returns_findings_so_far_witness :
    (∀ f ∈ ([⟨"a.json", FileContent.parsed (some [critFinding])⟩] : List SrcFile),
      strEndsWith f.name ".json" = true → f.content ≠ FileContent.readError) ∧
    strEndsWith "b.json" ".json" = true ∧
    (load_security_findings (DirState.files
        ([⟨"a.json", FileContent.parsed (some [critFinding])⟩] ++
          ⟨"b.json", FileContent.readError⟩ ::
            [⟨"c.json", FileContent.parsed (some [medFinding])⟩])) =
      load_security_findings
        (DirState.files [⟨"a.json", FileContent.parsed (some [critFinding])⟩]) ∧
      load_security_findings DirState.listError = []) :=
  ⟨by decide, by decide,
   load_failure_returns_findings_so_far
     [⟨"a.json", FileContent.parsed (some [critFinding])⟩] "b.json"
     [⟨"c.json", FileContent.parsed (some [medFinding])⟩] (by decide) (by decide)⟩

lemma collectFindings_no_detections (fs : List SrcFile) :
    ∀ acc : List Finding,
      (∀ f ∈ fs, strEndsWith f.name ".json" = true →
        f.content = FileContent.parsed none) →
      collectFindings fs acc = acc := by
  induction fs with
  | nil => intro acc _; rfl
  | cons f0 rest ih =>
    intro acc h
    by_cases hj : strEndsWith f0.name ".json" = true
    · rw [collectFindings, if_pos hj, h f0 (by simp) hj]
      exact ih acc (fun f hf => h f (by simp [hf]))
    · rw [collectFindings, if_neg hj]
      exact ih acc (fun f hf => h f (by simp [hf]))

/-- C8: when no JSON file of the results directory carries a top-level
`rule_detections` key, `load_security_findings` returns the empty list. -/
theorem load_no_rule_detections_empty (fs : List SrcFile)
    (h : ∀ f ∈ fs, strEndsWith f.name ".json" = true →
      f.content = FileContent.parsed none) :
    load_security_findings (DirState.files fs) = [] :=
  collectFindings_no_detections fs [] h

/-- Witness for C8: two detection-free JSON files and one skipped non-JSON
file yield an empty load. -/
theorem load_no_rule_detections_empty_witness :
    (∀ f ∈ ([⟨"a.json", FileContent.parsed none⟩, ⟨"b.json", FileContent.parsed none⟩,
        ⟨"note.txt", FileContent.readError⟩] : List SrcFile),
      strEndsWith f.name ".json" = true → f.content = FileContent.parsed none) ∧
    load_security_findings (DirState.files
      [⟨"a.json", FileContent.parsed none⟩, ⟨"b.json", FileContent.parsed none⟩,
       ⟨"note.txt", FileContent.readError⟩]) = [] :=
  ⟨by decide, load_no_rule_detections_empty _ (by decide)⟩

lemma appendFindingLines_eq_join (fs : List Finding) :
    ∀ (body : String) (i : Nat),
      appendFindingLines body i fs =
        body ++ joinStrings (((List.range' i fs.length).zip fs).map
          fun p => findingLine p.1 p.2) := by
  induction fs with
  | nil => intro body i; simp [appendFindingLines, joinStrings]
  | cons f rest ih =>
    intro body i
    rw [appendFindingLines, ih, List.length_cons, List.range'_succ,
      List.zip_cons_cons, List.map_cons, joinStrings, String.append_assoc]

lemma appendFixLines_eq_join (xs : List String) :
    ∀ body : String,
      appendFixLines body xs =
        body ++ joinStrings (xs.map fun fix => "- " ++ fix ++ "\n") := by
  induction xs with
  | nil => intro body; simp [appendFixLines, joinStrings]
  | cons x rest ih =>
    intro body
    rw [appendFixLines, ih, List.map_cons, joinStrings, String.append_assoc]

/-- C5: `generate_pr_body` is a pure function of its three arguments — equal
inputs give byte-identical bodies — and the produced body is the header
followed by one numbered line per finding (numbered from 1 in input order,
each finding exactly once), the fixes heading, one bullet per element of
`fixes_applied` in order, and the fixed tail. -/
theorem generate_pr_body_pure_enumerates (severity : String)
    (findings : List Finding) (fixes_applied : List String) :
    generate_pr_body severity findings fixes_applied =
      prHeader severity findings ++
      joinStrings (((List.range' 1 findings.length).zip findings).map
        fun p => findingLine p.1 p.2) ++
      prFixesHeading ++
      joinStrings (fixes_applied.map fun fix => "- " ++ fix ++ "\n") ++
      prTail ∧
    ∀ (s2 : String) (f2 : List Finding) (x2 : List String),
      severity = s2 → findings = f2 → fixes_applied = x2 →
      generate_pr_body severity findings fixes_applied = generate_pr_body s2 f2 x2 := by
  constructor
  · rw [generate_pr_body, appendFindingLines_eq_join, appendFixLines_eq_join]
  · intro s2 f2 x2 hs hf hx
    rw [hs, hf, hx]

/-- Witness for C5 at the concrete inputs `main` uses for a single critical
finding. -/
theorem generate_pr_body_pure_enumerates_witness :
    generate_pr_body "CRITICAL/HIGH" [critFinding] fixes_applied_list =
      prHeader "CRITICAL/HIGH" [critFinding] ++
      joinStrings (((List.range' 1 ([critFinding] : List Finding).length).zip [critFinding]).map
        fun p => findingLine p.1 p.2) ++
      prFixesHeading ++
      joinStrings (fixes_applied_list.map fun fix => "- " ++ fix ++ "\n") ++
      prTail ∧
    generate_pr_body "CRITICAL/HIGH" [critFinding] fixes_applied_list =
      generate_pr_body "CRITICAL/HIGH" [critFinding] fixes_applied_list :=
  ⟨(generate_pr_body_pure_enumerates "CRITICAL/HIGH" [critFinding] fixes_applied_list).1,
   (generate_pr_body_pure_enumerates "CRITICAL/HIGH" [critFinding] fixes_applied_list).2
     "CRITICAL/HIGH" [critFinding] fixes_applied_list rfl rfl rfl⟩

lemma mainRun_ok_exit (env : Env) (hco : env.checkoutMainOk = true)
    (hsev : (load_security_findings env.dir).all sevIsStr = true) :
    ∃ t : List Cmd, mainRun env = Except.ok
      ((if (chFindings env).isEmpty || stepSuccess env then 0 else 1 : Int), t) := by
  obtain ⟨dir, co, br, te, cp, ad, cm, pu, pr⟩ := env
  simp only at hco hsev
  subst hco
  cases dir with
  | missing => exact ⟨[], rfl⟩
  | listError => exact ⟨[], rfl⟩
  | files fs =>
    have hcat := categorize_eq_bucketed (load_security_findings (DirState.files fs)) hsev
    simp only [mainRun]
    rw [hcat]
    by_cases hemp : (load_security_findings (DirState.files fs)).isEmpty = true
    · rw [List.isEmpty_iff] at hemp
      refine ⟨[], ?_⟩
      simp [hemp, chFindings, load_security_findings]
      rw [show collectFindings fs [] = [] from hemp]
      simp
    · simp only [hemp, if_false, Bool.false_eq_true]
      have hchdef : (bucketed (load_security_findings (DirState.files fs))).CRITICAL ++
          (bucketed (load_security_findings (DirState.files fs))).HIGH =
          chFindings ⟨DirState.files fs, true, br, te, cp, ad, cm, pu, pr⟩ := rfl
      by_cases hch : (chFindings ⟨DirState.files fs, true, br, te, cp, ad, cm, pu, pr⟩).isEmpty = true
      · refine ⟨[], ?_⟩
        rw [hchdef, hch]
        simp [hch]
      · rw [hchdef]
        simp only [hch, if_false, Bool.false_eq_true, Bool.false_or]
        cases br <;> cases te <;> cases cp <;> cases ad <;> cases cm <;> cases pu <;>
          cases pr <;> exact ⟨_, rfl⟩

/-- C4 counterexample: when the unguarded `git checkout main` at line 234
fails, `main` does not return a controlled non-zero exit — the
`CalledProcessError` escapes uncaught and terminates the process host. -/
theorem main_checkout_failure_uncaught_cex :
    mainRun envCheckoutFail = Except.error "CalledProcessError: git checkout main" := by
  decide

/-- C4 amended: every failure path other than the base-branch checkout (and
other than a non-string severity crashing the categorizer) is controlled —
whenever `git checkout main` would succeed and the loaded severities are
strings, `main` returns normally, never raising an uncaught exception. -/
theorem main_controlled_exit_when_checkout_ok (env : Env)
    (hco : env.checkoutMainOk = true)
    (hsev : (load_security_findings env.dir).all sevIsStr = true) :
    ∃ p : Int × List Cmd, mainRun env = Except.ok p := by
  obtain ⟨t, ht⟩ := mainRun_ok_exit env hco hsev
  exact ⟨_, ht⟩

/-- Witness for the amended C4 at a concrete all-succeeding run. -/
theorem main_controlled_exit_when_checkout_ok_witness :
    envAllOk.checkoutMainOk = true ∧
    (load_security_findings envAllOk.dir).all sevIsStr = true ∧
    ∃ p : Int × List Cmd, mainRun envAllOk = Except.ok p :=
  ⟨rfl, by decide, main_controlled_exit_when_checkout_ok envAllOk rfl (by decide)⟩

/-- C6: with the base-branch checkout succeeding and string severities, the
exit code passed to `sys.exit` is 0 on success or intentional no-op (no
critical/high findings) and 1 exactly when some step among branch creation,
fix application, push and PR creation fails; in particular an absent
remediation template makes a remediation run exit 1. -/
theorem main_exit_zero_or_one (env : Env)
    (hco : env.checkoutMainOk = true)
    (hsev : (load_security_findings env.dir).all sevIsStr = true) :
    (∃ t : List Cmd, mainRun env = Except.ok
      ((if (chFindings env).isEmpty || stepSuccess env then 0 else 1 : Int), t)) ∧
    (env.templateExists = false → (chFindings env).isEmpty = false →
      ∃ t : List Cmd, mainRun env = Except.ok (1, t)) := by
  refine ⟨mainRun_ok_exit env hco hsev, ?_⟩
  intro hte hch
  obtain ⟨t, ht⟩ := mainRun_ok_exit env hco hsev
  refine ⟨t, ?_⟩
  rw [ht, hch]
  simp [stepSuccess, hte]

/-- Witness for C6 at a concrete run with one critical finding and a missing
template: the run exits 1. -/
theorem main_exit_zero_or_one_witness :
    envNoTemplate.checkoutMainOk = true ∧
    (load_security_findings envNoTemplate.dir).all sevIsStr = true ∧
    ((∃ t : List Cmd, mainRun envNoTemplate = Except.ok
      ((if (chFindings envNoTemplate).isEmpty || stepSuccess envNoTemplate
        then 0 else 1 : Int), t)) ∧
    (envNoTemplate.templateExists = false → (chFindings envNoTemplate).isEmpty = false →
      ∃ t : List Cmd, mainRun envNoTemplate = Except.ok (1, t))) :=
  ⟨rfl, by decide, main_exit_zero_or_one envNoTemplate rfl (by decide)⟩

/-- C7: a run whose loaded findings contain no CRITICAL and no HIGH finding
(including zero findings, a missing results directory, or an unreadable one)
returns 0 and invokes no version-control or PR command at all: no checkout,
no branch, no commit, no push, no pull request. -/
theorem main_no_crit_high_zero_no_commands (env : Env)
    (hsev : (load_security_findings env.dir).all sevIsStr = true)
    (hch : chFindings env = []) :
    mainRun env = Except.ok (0, []) := by
  obtain ⟨dir, co, br, te, cp, ad, cm, pu, pr⟩ := env
  simp only at hsev hch
  cases dir with
  | missing => rfl
  | listError => rfl
  | files fs =>
    have hcat := categorize_eq_bucketed (load_security_findings (DirState.files fs)) hsev
    simp only [mainRun]
    rw [hcat]
    by_cases hemp : (load_security_findings (DirState.files fs)).isEmpty = true
    · simp [hemp]
    · simp only [hemp, if_false, Bool.false_eq_true]
      have hchdef : (bucketed (load_security_findings (DirState.files fs))).CRITICAL ++
          (bucketed (load_security_findings (DirState.files fs))).HIGH =
          chFindings ⟨DirState.files fs, co, br, te, cp, ad, cm, pu, pr⟩ := rfl
      rw [hchdef, hch]
      simp

/-- Witness for C7 at a concrete MEDIUM-only run. -/
theorem main_no_crit_high_zero_no_commands_witness :
    (load_security_findings envMediumOnly.dir).all sevIsStr = true ∧
    chFindings envMediumOnly = [] ∧
    mainRun envMediumOnly = Except.ok (0, []) :=
  ⟨by decide, by decide,
   main_no_crit_high_zero_no_commands envMediumOnly (by decide) (by decide)⟩

/-- C10: every run that reaches the remediation path (critical/high findings
present, base checkout succeeding) creates its fix branch under the fixed
constant name `security-fixes/critical-high-remediation`, every branch it
creates carries that name, and every PR it opens has that branch as head —
independent of the findings' content or count. -/
theorem main_branch_name_constant (env : Env)
    (hco : env.checkoutMainOk = true)
    (hsev : (load_security_findings env.dir).all sevIsStr = true)
    (hch : (chFindings env).isEmpty = false) :
    ∃ (c : Int) (t : List Cmd), mainRun env = Except.ok (c, t) ∧
      Cmd.gitCheckoutNewBranch "security-fixes/critical-high-remediation" ∈ t ∧
      (∀ n, Cmd.gitCheckoutNewBranch n ∈ t →
        n = "security-fixes/critical-high-remediation") ∧
      (∀ title body head base, Cmd.ghPrCreate title body head base ∈ t →
        head = "security-fixes/critical-high-remediation") := by
  obtain ⟨dir, co, br, te, cp, ad, cm, pu, pr⟩ := env
  simp only at hco hsev hch
  subst hco
  cases dir with
  | missing => simp [chFindings, load_security_findings] at hch
  | listError => simp [chFindings, load_security_findings] at hch
  | files fs =>
    have hcat := categorize_eq_bucketed (load_security_findings (DirState.files fs)) hsev
    simp only [mainRun]
    rw [hcat]
    by_cases hemp : (load_security_findings (DirState.files fs)).isEmpty = true
    · rw [List.isEmpty_iff] at hemp
      rw [show chFindings ⟨DirState.files fs, true, br, te, cp, ad, cm, pu, pr⟩ = [] from
        by simp [chFindings, hemp]] at hch
      simp at hch
    · simp only [hemp, if_false, Bool.false_eq_true]
      have hchdef : (bucketed (load_security_findings (DirState.files fs))).CRITICAL ++
          (bucketed (load_security_findings (DirState.files fs))).HIGH =
          chFindings ⟨DirState.files fs, true, br, te, cp, ad, cm, pu, pr⟩ := rfl
      rw [hchdef]
      simp only [hch, if_false, Bool.false_eq_true]
      cases br <;> cases te <;> cases cp <;> cases ad <;> cases cm <;> cases pu <;>
        cases pr <;>
        exact ⟨_, _, rfl,
          by simp [branch_name, create_fix_branch, apply_critical_fixes, push_branch,
            create_pull_request],
          by simp [branch_name, create_fix_branch, apply_critical_fixes, push_branch,
            create_pull_request],
          by
            intro title body head base hmem
            simp [branch_name, create_fix_branch, apply_critical_fixes, push_branch,
              create_pull_request] at hmem <;> exact hmem.2.2.1⟩

/-- Witness for C10 at a concrete all-succeeding run with one critical
finding. -/
theorem main_branch_name_constant_witness :
    envAllOk.checkoutMainOk = true ∧
    (load_security_findings envAllOk.dir).all sevIsStr = true ∧
    (chFindings envAllOk).isEmpty = false ∧
    (∃ (c : Int) (t : List Cmd), mainRun envAllOk = Except.ok (c, t) ∧
      Cmd.gitCheckoutNewBranch "security-fixes/critical-high-remediation" ∈ t ∧
      (∀ n, Cmd.gitCheckoutNewBranch n ∈ t →
        n = "security-fixes/critical-high-remediation") ∧
      (∀ title body head base, Cmd.ghPrCreate title body head base ∈ t →
        head = "security-fixes/critical-high-remediation")) :=
  ⟨rfl, by decide, by decide,
   main_branch_name_constant envAllOk rfl (by decide) (by decide)⟩
